import Mathlib

/-!
Verification of the MoM (Minutes of Meeting) assistant.

The repository drives a two-stage pipeline over a hosted text-generation
oracle: an interview stage over the accumulated user input, then a
rendering stage that produces the final minutes document.  This file is a
shallow embedding of src/app.py and src/ui.py: the oracle is an explicit
function argument, process state (environment variables, chat session
state) is passed explicitly, and fallible calls return Except.
-/

namespace MoM

/-- Chat roles carried by the prompt templates and the oracle calls. -/
inductive Role where
  | system
  | human
  | assistant
  deriving DecidableEq, Repr

/-- A chat message, as assembled by the prompt templates and as returned by
the oracle. -/
structure ChatMsg where
  role : Role
  content : String
  deriving DecidableEq, Repr

/-- Failure of an outbound oracle call (transport, quota, and so on). -/
structure OracleError where
  msg : String
  deriving DecidableEq, Repr

/-- The remote text-generation oracle: a full prompt in, one reply message
out, or a call failure. -/
abbrev Oracle := List ChatMsg → Except OracleError ChatMsg

/-- System template of create_raw_interview_chain (src/app.py lines 61-89). -/
def interview_system_template : String :=
  "You are a highly intelligent meeting assistant designed to gather all necessary information for creating accurate and detailed Meeting Minutes (MoM). "
  ++ "Your task is to conduct an interview with a consultant by asking questions in a natural, conversational manner. Begin by asking the essential questions below:\n\n"
  ++ "*Essential Questions:*\n"
  ++ "1. What is the name of the company?\n"
  ++ "2. Who was present at the meeting?\n"
  ++ "3. Where did the meeting take place?\n"
  ++ "4. How long did the meeting last?\n"
  ++ "5. How many employees does the company have?\n"
  ++ "6. How many levels of management does the company have?\n\n"
  ++ "After receiving responses to these, analyze the context of the conversation to determine if additional details are needed. Based on the context, ask any relevant optional questions from the following list to enrich the meeting record:\n\n"
  ++ "*Optional Questions (ask if context indicates relevance):*\n"
  ++ "- What are the company’s main strategic goals for this period?\n"
  ++ "- What is the company’s focus when it comes to development?\n"
  ++ "- Which target groups within the company are prioritized for development?\n"
  ++ "- What are the main challenges these target groups are currently facing?\n"
  ++ "- Are there any specific competencies or skills the company wants to prioritize across teams?\n"
  ++ "- What learning and development programs are currently in place?\n"
  ++ "- How do you currently measure skill levels and identify training needs?\n"
  ++ "- Which learning formats do employees prefer (online programs, in-person workshops, blended learning)?\n"
  ++ "- Is there any specific format desired for the development (trainings, training days, team building, coaching, etc.)?\n\n"
  ++ "Once you have gathered all the necessary and contextually relevant responses, also ask:\n"
  ++ "- What are the key action items from this discussion?\n"
  ++ "- Who is responsible for following up on these topics?\n"
  ++ "- When should we check in again on the progress of development initiatives?\n\n"
  ++ "Before concluding, confirm with the user if there is any additional information they would like to add. "
  ++ "Your goal is to ensure that every piece of relevant data is captured in a complete meeting record. "
  ++ "Always maintain a conversational tone, adapt your questions based on previous responses, and guide the conversation naturally."

/-- System template of create_mom_chain (src/app.py lines 104-127). -/
def mom_system_template : String :=
  "You are a highly professional meeting assistant and expert consultant. Based on the raw meeting data provided, "
  ++ "generate the final Meeting Minutes (MoM) using the following format exactly:\n\n"
  ++ "Date: [Insert Date, e.g., \x27October 15, 2024\x27]\n"
  ++ "Attendees:\n"
  ++ "- Atria: [Insert Names, e.g., \x27John Doe, Jane Smith\x27]\n"
  ++ "- Company: [Insert Names and Company, e.g., \x27Alice Brown, Bob Green - XYZ Corp\x27]\n"
  ++ "Duration: [Insert Duration, e.g., \x2745 minutes\x27]\n"
  ++ "Location: [Insert Location, e.g., \x27Atria Office\x27 or \x27Client’s Office\x27]\n\n"
  ++ "Company Details (if provided):\n"
  ++ "- Number of employees: [Insert Number, e.g., \x2750\x27]\n"
  ++ "- Levels of management: [Insert Number, e.g., \x273\x27]\n\n"
  ++ "Meeting Topic: [Insert Topic, e.g., \x27Discussing training needs for leadership development\x27]\n\n"
  ++ "#### Key Discussion Points:\n"
  ++ "- Client’s Current Situation and Needs: [Summarize client challenges or goals, e.g., \x27Need training for 10 managers\x27]\n"
  ++ "- Proposed Solutions or Programs: [List ideas discussed, e.g., \x27Suggested leadership workshop\x27]\n"
  ++ "- Agreements or Decisions: [Note outcomes, e.g., \x27Agreed to propose a 2-day program\x27]\n\n"
  ++ "#### Action Items:\n"
  ++ "- Next Steps: [List tasks, e.g., \x27Draft proposal for leadership training\x27]\n"
  ++ "- Responsible Persons: [Assign names, e.g., \x27John Doe\x27]\n"
  ++ "- Deadlines or Follow-up Dates: [Insert dates, e.g., \x27October 20, 2024\x27]\n\n"
  ++ "Use the raw meeting data provided to fill in these placeholders. If certain optional information is missing, omit that section or mark it as \x27Not Specified.\x27 "
  ++ "Your output must be professional, concise, and ready for stakeholder review."

/-- Human message of the mom chain before the raw data slot
(src/app.py line 131). -/
def mom_human_prefix : String :=
  "Generate the final Meeting Minutes (MoM) from the following raw meeting data:\n"

/-- Prompt sent by the interview chain for a given input: the formatted
ChatPromptTemplate of a system message and the human input. -/
def interview_prompt (input : String) : List ChatMsg :=
  [⟨Role.system, interview_system_template⟩, ⟨Role.human, input⟩]

/-- Prompt sent by the mom chain for given raw meeting data. -/
def mom_prompt (raw_data : String) : List ChatMsg :=
  [⟨Role.system, mom_system_template⟩, ⟨Role.human, mom_human_prefix ++ raw_data⟩]

/-- The raw interview chain of src/app.py: interview prompt, then the llm,
then StrOutputParser (which keeps just the text content of the reply). -/
def create_raw_interview_chain (llm : Oracle) : String → Except OracleError String :=
  fun input => (llm (interview_prompt input)).map ChatMsg.content

/-- The Meeting Minutes generation chain of src/app.py: mom prompt, then the
llm, then StrOutputParser. -/
def create_mom_chain (llm : Oracle) : String → Except OracleError String :=
  fun raw_data => (llm (mom_prompt raw_data)).map ChatMsg.content

/-- Configuration of the hosted model client as built by initialize_llm. -/
structure ChatOpenAI where
  model_name : String
  temperature : ℚ
  deriving DecidableEq, Repr

/-- Error message raised when no credential is found
(src/app.py line 22). -/
def missing_key_error : String :=
  "OPENAI_API_KEY not found in Streamlit secrets or environment variables."

/-- validate_env_vars (src/app.py lines 11-23).  The key is looked up in the
Streamlit secret store first and, when found, copied into the process
environment; on any secrets lookup failure the environment variable is used
instead.  A missing or empty key raises ValueError, modelled as
Except.error.  The second component is the environment after the call. -/
def validate_env_vars (secrets env : String → Option String) :
    Except String String × (String → Option String) :=
  match secrets "OPENAI_API_KEY" with
  | some k =>
      let env2 : String → Option String :=
        fun name => if name = "OPENAI_API_KEY" then some k else env name
      if k = "" then (Except.error missing_key_error, env2)
      else (Except.ok k, env2)
  | none =>
      match env "OPENAI_API_KEY" with
      | some k =>
          if k = "" then (Except.error missing_key_error, env)
          else (Except.ok k, env)
      | none => (Except.error missing_key_error, env)

/-- initialize_llm (src/app.py lines 40-50): validate the credential, then
build the ChatOpenAI client (gpt-4, temperature 0.7); a validation error is
logged and re-raised, and no client is constructed in that case. -/
def initialize_llm (secrets env : String → Option String) :
    Except String ChatOpenAI × (String → Option String) :=
  match validate_env_vars secrets env with
  | (Except.error e, env2) => (Except.error e, env2)
  | (Except.ok _, env2) =>
      (Except.ok { model_name := "gpt-4", temperature := 7/10 }, env2)

/-- Error surfaced by process_meeting_data: either the configuration error
from initialize_llm or an oracle call failure from one of the chains. -/
inductive PipelineError where
  | configError (msg : String)
  | oracleFailure (e : OracleError)
  deriving DecidableEq, Repr

/-- Result dictionary of process_meeting_data. -/
structure PipelineResult where
  raw_data : String
  meeting_minutes : String
  deriving DecidableEq, Repr

/-- process_meeting_data (src/app.py lines 163-188): initialize the llm,
run the interview chain on the user responses, then run the mom chain on
the interview chain result; any exception is logged and re-raised.  The
second component is the ordered list of oracle prompts issued. -/
def process_meeting_data (secrets env : String → Option String)
    (llmInvoke : ChatOpenAI → Oracle) (user_responses : String) :
    Except PipelineError PipelineResult × List (List ChatMsg) :=
  match (initialize_llm secrets env).1 with
  | Except.error e => (Except.error (PipelineError.configError e), [])
  | Except.ok client =>
      let llm := llmInvoke client
      match create_raw_interview_chain llm user_responses with
      | Except.error e =>
          (Except.error (PipelineError.oracleFailure e),
           [interview_prompt user_responses])
      | Except.ok raw_data =>
          match create_mom_chain llm raw_data with
          | Except.error e =>
              (Except.error (PipelineError.oracleFailure e),
               [interview_prompt user_responses, mom_prompt raw_data])
          | Except.ok minutes =>
              (Except.ok { raw_data := raw_data, meeting_minutes := minutes },
               [interview_prompt user_responses, mom_prompt raw_data])

/-- The dialogue oracle behind the interactive chat chain; it always
replies with a message (call failures are outside the loop claims). -/
abbrev ChatOracle := List ChatMsg → ChatMsg

/-- System template of create_interactive_chain (src/app.py lines 138-148). -/
def interactive_system_template : String :=
  "You are a helpful meeting assistant conducting an interview to gather information for meeting minutes. "
  ++ "Ask questions one at a time to gather all essential details. Begin with the following essential questions:\n"
  ++ "1. What is the name of the company?\n"
  ++ "2. Who was present at the meeting?\n"
  ++ "3. Where did the meeting take place?\n"
  ++ "4. How long did the meeting last?\n"
  ++ "5. How many employees does the company have?\n"
  ++ "6. How many levels of management does the company have?\n"
  ++ "Then, ask additional questions about strategic goals, development focus, challenges, action items, and follow-up. "
  ++ "Be conversational and wait for each response before proceeding."

/-- Prompt of the interactive chain: system message, the chat history
placeholder, then the human input. -/
def interactive_prompt (chat_history : List ChatMsg) (input : String) : List ChatMsg :=
  ⟨Role.system, interactive_system_template⟩ :: (chat_history ++ [⟨Role.human, input⟩])

/-- The interactive chat chain of src/app.py (prompt then llm, with no
output parser: the reply message itself is returned). -/
def create_interactive_chain (llm : ChatOracle) (input : String)
    (chat_history : List ChatMsg) : ChatMsg :=
  llm (interactive_prompt chat_history input)

/-- The while loop of run_interactive_interview (src/app.py lines 208-217)
over the stream of values returned by input(): stop before collecting when
the lowercased input equals exit; otherwise collect the input, query the
chat chain, extend the history with the human turn and the reply, and
continue.  Returns none when the stream is exhausted without an exit (the
Python loop would still be blocking on input() there). -/
def interview_loop (llm : ChatOracle) :
    List String → List ChatMsg → List String → Option (List String)
  | [], _, _ => none
  | u :: rest, hist, collected =>
      if u.toLower = "exit" then some collected
      else
        interview_loop llm rest
          (hist ++ [⟨Role.human, u⟩, create_interactive_chain llm u hist])
          (collected ++ [u])

/-- run_interactive_interview (src/app.py lines 190-221): greet the oracle
with Hello, seed the chat history with that exchange, run the loop, and
join the collected responses with newlines. -/
def run_interactive_interview (llm : ChatOracle) (inputs : List String) :
    Option String :=
  let initial_response := create_interactive_chain llm "Hello" []
  let chat_history := [⟨Role.human, "Hello"⟩, initial_response]
  (interview_loop llm inputs chat_history []).map (String.intercalate "\n")

/-- Python str whitespace: the characters removed by str.strip() with no
argument, that is, the characters for which str.isspace() holds —
U+0009 to U+000D, U+001C to U+001F, the space, U+0085, U+00A0, U+1680,
U+2000 to U+200A, U+2028, U+2029, U+202F, U+205F and U+3000. -/
def isPySpace (c : Char) : Bool :=
  (9 ≤ c.toNat && c.toNat ≤ 13) || (28 ≤ c.toNat && c.toNat ≤ 31)
  || c.toNat = 32 || c.toNat = 0x85 || c.toNat = 0xa0 || c.toNat = 0x1680
  || (0x2000 ≤ c.toNat && c.toNat ≤ 0x200a) || c.toNat = 0x2028
  || c.toNat = 0x2029 || c.toNat = 0x202f || c.toNat = 0x205f
  || c.toNat = 0x3000

/-- Python str.strip() with no argument: drop leading and trailing
whitespace. -/
def py_strip (s : String) : String :=
  String.mk (((s.data.dropWhile isPySpace).reverse.dropWhile isPySpace).reverse)

/-- The hardcoded sample meeting notes of the manual-entry branch
(src/app.py lines 241-262). -/
def abc_sample_notes : String :=
  "Company: ABC Technologies\n"
  ++ "Participants: Sarah (CEO), Mike (CTO), Julie (HR Director), David (Team Lead)\n"
  ++ "Location: Virtual meeting via Zoom\n"
  ++ "Duration: 90 minutes\n"
  ++ "Company size: 85 employees\n"
  ++ "Management: 3 levels\n\n"
  ++ "Strategic goals discussed:\n"
  ++ "- Launch new product line Q3\n"
  ++ "- Expand into European market\n"
  ++ "- Improve employee retention by 15%\n\n"
  ++ "Development focus: Technical upskilling of mid-level managers\n\n"
  ++ "Challenges:\n"
  ++ "- Knowledge gaps in cloud architecture\n"
  ++ "- Limited training budget\n"
  ++ "- Rapid team growth causing communication issues\n\n"
  ++ "Action items:\n"
  ++ "- Julie to research training providers by next Friday\n"
  ++ "- Mike to outline skill requirements by Wednesday\n"
  ++ "- David to gather feedback from team by Monday\n"
  ++ "- Follow-up meeting scheduled for two weeks from now\n"

/-- The manual-entry branch of the main block (src/app.py lines 230-262):
join the entered lines with newlines and, when the result strips to the
empty string, silently substitute the built-in ABC Technologies sample. -/
def choose_manual_notes (user_input_lines : List String) : String :=
  let user_responses := String.intercalate "\n" user_input_lines
  if py_strip user_responses = "" then abc_sample_notes else user_responses

/-- Session state of the chat page (src/ui.py): the displayed (role,
content) messages, the llm chat history, the collected user responses, and
the flag marking that the 1-or-2 flow selection is still pending. -/
structure SessionState where
  messages : List (String × String)
  chat_history : List ChatMsg
  collected_responses : List String
  waiting_for_option : Bool
  deriving DecidableEq, Repr

/-- Welcome message seeded by init_session_state (src/ui.py lines 28-33). -/
def welcome_message : String :=
  "Welcome to the Advanced Meeting Minutes Assistant!\n\n"
  ++ "1: Enter meeting notes manually\n"
  ++ "2: Run interactive interview\n\n"
  ++ "Please select an option (1 or 2)"

/-- init_session_state (src/ui.py lines 23-40). -/
def init_session_state : SessionState :=
  { messages := [("assistant", welcome_message)]
  , chat_history := []
  , collected_responses := []
  , waiting_for_option := true }

/-- Assistant follow-up after a valid flow selection
(src/ui.py lines 69-73). -/
def option_next_message (user_input : String) : String :=
  if user_input = "1" then "Please enter your meeting notes directly:"
  else "Let\x27s start with some basic information:\n What is the name of the company?"

/-- One chat-input event of the page (src/ui.py lines 64-108).  While the
flow selection is pending, a 1 or 2 is recorded (two messages and one
collected response) and the flag cleared, and anything else only produces a
retry prompt; afterwards every input is recorded, sent to the chat chain
with the current history, and the reply displayed and appended. -/
def ui_step (llm : ChatOracle) (s : SessionState) (user_input : String) : SessionState :=
  if s.waiting_for_option then
    if user_input = "1" ∨ user_input = "2" then
      { s with
        waiting_for_option := false
        messages := s.messages ++
          [("user", user_input), ("assistant", option_next_message user_input)]
        collected_responses := s.collected_responses ++ [user_input] }
    else
      { s with
        messages := s.messages ++
          [("user", user_input), ("assistant", "Please select either 1 or 2:")] }
  else
    let response := create_interactive_chain llm user_input s.chat_history
    { s with
      messages := s.messages ++ [("user", user_input), ("assistant", response.content)]
      collected_responses := s.collected_responses ++ [user_input]
      chat_history := s.chat_history ++ [⟨Role.human, user_input⟩, response] }

/-- The page state after a sequence of chat inputs, starting from the
initial session state. -/
def ui_run (llm : ChatOracle) (inputs : List String) : SessionState :=
  inputs.foldl (ui_step llm) init_session_state

/-- Availability of the Generate Meeting Minutes button
(src/ui.py line 56). -/
def show_generate_button (s : SessionState) : Bool :=
  decide (3 < s.messages.length)

/-- The raw text handed to process_meeting_data by the button handler
(src/ui.py line 58). -/
def generate_minutes_input (s : SessionState) : String :=
  String.intercalate "\n" s.collected_responses

/-- A possibly stateful oracle endpoint: the reply may depend on hidden
server state, and each call also updates that state. -/
def StatefulOracle (σ : Type) := σ → List ChatMsg → Except OracleError ChatMsg × σ

/-- The mom chain invoked against a stateful oracle endpoint, threading the
hidden state through the single call it issues. -/
def create_mom_chain_stateful {σ : Type} (llm : StatefulOracle σ)
    (raw_data : String) (s : σ) : Except OracleError String × σ :=
  let r := llm s (mom_prompt raw_data)
  (r.1.map ChatMsg.content, r.2)

/-- Two consecutive invocations of the mom chain on the same raw data,
threading the oracle state from the first call into the second. -/
def render_twice {σ : Type} (llm : StatefulOracle σ) (raw_data : String) (s : σ) :
    Except OracleError String × Except OracleError String :=
  let first := create_mom_chain_stateful llm raw_data s
  let second := create_mom_chain_stateful llm raw_data first.2
  (first.1, second.1)

/-- Modelled from the spec: ActionItem of the structured-data pipeline (the
schema source file is not among the provided source files); every field has
a total default. -/
structure ActionItem where
  description : String := "No specific action items"
  owner : String := "Not Assigned"
  due_date : String := "Not Set"
  deriving DecidableEq, Repr

/-- Modelled from the spec: the meeting_info block of MeetingRecord, fully
defaulted (strings default to Not Specified, participants to a one-element
default list, the optional integers to absent). -/
structure MeetingInfo where
  company_name : String := "Not Specified"
  participants : List String := ["Not Specified"]
  location : String := "Not Specified"
  duration : String := "Not Specified"
  employee_count : Option Int := none
  management_levels : Option Int := none
  deriving DecidableEq, Repr

/-- Modelled from the spec: MeetingRecord, the fully-defaulted structured
representation of one meeting. -/
structure MeetingRecord where
  meeting_info : MeetingInfo := {}
  strategic_goals : List String := []
  development_focus : String := "Not Specified"
  challenges : List String := []
  action_items : List ActionItem := []
  follow_up_date : String := "Not Set"
  additional_notes : String := "No additional notes"
  deriving DecidableEq, Repr

/-- Modelled from the spec: the MeetingRecord in which every field equals
its defined default value. -/
def defaultMeetingRecord : MeetingRecord := {}

/-- Modelled from the spec: a schema-conforming reply for an action item
before defaulting (absent fields are none). -/
structure ParsedActionItem where
  description : Option String
  owner : Option String
  due_date : Option String
  deriving DecidableEq, Repr

/-- Modelled from the spec: a schema-conforming reply for the meeting_info
block before defaulting (absent fields are none). -/
structure ParsedMeetingInfo where
  company_name : Option String
  participants : Option (List String)
  location : Option String
  duration : Option String
  employee_count : Option Int
  management_levels : Option Int
  deriving DecidableEq, Repr

/-- Modelled from the spec: a schema-conforming oracle reply for a whole
MeetingRecord before defaulting (absent fields are none). -/
structure ParsedRecord where
  meeting_info : Option ParsedMeetingInfo
  strategic_goals : Option (List String)
  development_focus : Option String
  challenges : Option (List String)
  action_items : Option (List ParsedActionItem)
  follow_up_date : Option String
  additional_notes : Option String
  deriving DecidableEq, Repr

/-- Modelled from the spec: participants are normalized so that an empty
sequence becomes the one-element default list. -/
def normalizeParticipants (ps : List String) : List String :=
  if ps.isEmpty then ["Not Specified"] else ps

/-- Modelled from the spec: defaulting pass for one action item. -/
def applyActionItemDefaults (p : ParsedActionItem) : ActionItem :=
  { description := p.description.getD "No specific action items"
  , owner := p.owner.getD "Not Assigned"
  , due_date := p.due_date.getD "Not Set" }

/-- Modelled from the spec: defaulting pass for the meeting_info block;
missing or empty participants normalize to the one-element default list. -/
def applyMeetingInfoDefaults (p : ParsedMeetingInfo) : MeetingInfo :=
  { company_name := p.company_name.getD "Not Specified"
  , participants := normalizeParticipants (p.participants.getD [])
  , location := p.location.getD "Not Specified"
  , duration := p.duration.getD "Not Specified"
  , employee_count := p.employee_count
  , management_levels := p.management_levels }

/-- Modelled from the spec: the validation and normalization pass turning a
parsed reply into a fully-defaulted MeetingRecord. -/
def applyDefaults (p : ParsedRecord) : MeetingRecord :=
  { meeting_info := (p.meeting_info.map applyMeetingInfoDefaults).getD {}
  , strategic_goals := p.strategic_goals.getD []
  , development_focus := p.development_focus.getD "Not Specified"
  , challenges := p.challenges.getD []
  , action_items := (p.action_items.map (List.map applyActionItemDefaults)).getD []
  , follow_up_date := p.follow_up_date.getD "Not Set"
  , additional_notes := p.additional_notes.getD "No additional notes" }

/-- Modelled from the spec: extract of the structured-data pipeline (not
among the provided source files).  It sends raw_text to the oracle once,
parses the reply against the schema, applies the defaulting policy on
success, and on any parse or validation failure falls back to the
all-defaults MeetingRecord without retrying the oracle call and without
raising.  The second component records the oracle calls issued. -/
def extract (parse : String → Option ParsedRecord) (oracle : String → String)
    (raw_text : String) : MeetingRecord × List String :=
  match parse (oracle raw_text) with
  | some p => (applyDefaults p, [raw_text])
  | none => (defaultMeetingRecord, [raw_text])

/-- Participants produced by the normalization pass are never empty. -/
theorem normalizeParticipants_ne_nil (ps : List String) :
    normalizeParticipants ps ≠ [] := by
  unfold normalizeParticipants
  cases ps with
  | nil => simp
  | cons a l => simp

/-- C1: every oracle reply to an extraction call that does not parse
against the MeetingRecord schema makes extract return the record in which
every field equals its defined default value, with exactly one oracle call
issued (no retry) and no exception raised. -/
theorem extract_nonconforming_returns_all_defaults
    (parse : String → Option ParsedRecord) (oracle : String → String)
    (raw : String) (h : parse (oracle raw) = none) :
    extract parse oracle raw = (defaultMeetingRecord, [raw]) ∧
    (extract parse oracle raw).1.meeting_info.company_name = "Not Specified" ∧
    (extract parse oracle raw).1.meeting_info.participants = ["Not Specified"] ∧
    (extract parse oracle raw).1.meeting_info.location = "Not Specified" ∧
    (extract parse oracle raw).1.meeting_info.duration = "Not Specified" ∧
    (extract parse oracle raw).1.meeting_info.employee_count = none ∧
    (extract parse oracle raw).1.meeting_info.management_levels = none ∧
    (extract parse oracle raw).1.strategic_goals = [] ∧
    (extract parse oracle raw).1.development_focus = "Not Specified" ∧
    (extract parse oracle raw).1.challenges = [] ∧
    (extract parse oracle raw).1.action_items = [] ∧
    (extract parse oracle raw).1.follow_up_date = "Not Set" ∧
    (extract parse oracle raw).1.additional_notes = "No additional notes" := by
  have he : extract parse oracle raw = (defaultMeetingRecord, [raw]) := by
    unfold extract
    rw [h]
  rw [he]
  exact ⟨rfl, rfl, rfl, rfl, rfl, rfl, rfl, rfl, rfl, rfl, rfl, rfl, rfl⟩

/-- Witness of the C1 theorem at a concrete non-conforming oracle reply. -/
theorem extract_nonconforming_returns_all_defaults_witness :
    (fun _ : String => (none : Option ParsedRecord))
      ((fun s : String => s) "some non schema text") = none ∧
    extract (fun _ => none) (fun s => s) "some non schema text" =
      (defaultMeetingRecord, ["some non schema text"]) :=
  ⟨rfl,
   (extract_nonconforming_returns_all_defaults (fun _ => none) (fun s => s)
     "some non schema text" rfl).1⟩

/-- C2: every MeetingRecord produced by extract has a non-empty
participants list, and an oracle reply supplying an empty participants
list yields the one-element default list. -/
theorem extract_participants_never_empty :
    (∀ (parse : String → Option ParsedRecord) (oracle : String → String)
      (raw : String), (extract parse oracle raw).1.meeting_info.participants ≠ []) ∧
    (∀ (parse : String → Option ParsedRecord) (oracle : String → String)
      (raw : String) (p : ParsedRecord) (pm : ParsedMeetingInfo),
      parse (oracle raw) = some p → p.meeting_info = some pm →
      pm.participants = some [] →
      (extract parse oracle raw).1.meeting_info.participants = ["Not Specified"]) := by
  constructor
  · intro parse oracle raw
    unfold extract
    cases hp : parse (oracle raw) with
    | none => simp [defaultMeetingRecord]
    | some p =>
        cases hm : p.meeting_info with
        | none => simp [applyDefaults, hm]
        | some pm =>
            simp [applyDefaults, hm, applyMeetingInfoDefaults,
              normalizeParticipants_ne_nil]
  · intro parse oracle raw p pm hp hm hpart
    unfold extract
    rw [hp]
    simp [applyDefaults, hm, hpart, applyMeetingInfoDefaults, normalizeParticipants]

/-- Witness of the C2 theorem: a parsed reply with an empty participants
list normalizes to the one-element default list. -/
theorem extract_participants_never_empty_witness :
    (extract
      (fun _ => some ⟨some ⟨none, some [], none, none, none, none⟩,
        none, none, none, none, none, none⟩)
      (fun s => s) "transcript").1.meeting_info.participants = ["Not Specified"] :=
  extract_participants_never_empty.2
    (fun _ => some ⟨some ⟨none, some [], none, none, none, none⟩,
      none, none, none, none, none, none⟩)
    (fun s => s) "transcript"
    ⟨some ⟨none, some [], none, none, none, none⟩, none, none, none, none, none, none⟩
    ⟨none, some [], none, none, none, none⟩ rfl rfl rfl

/-- C3: with the credential in neither the secret store nor the
environment, initialization raises before any oracle call (the pipeline
issues no prompt at all); with a non-empty credential in either place,
initialization succeeds and the credential is configured. -/
theorem initialize_llm_credential_requirement (secrets env : String → Option String) :
    (secrets "OPENAI_API_KEY" = none → env "OPENAI_API_KEY" = none →
      (initialize_llm secrets env).1 = Except.error missing_key_error ∧
      ∀ (llmInvoke : ChatOpenAI → Oracle) (ur : String),
        process_meeting_data secrets env llmInvoke ur =
          (Except.error (PipelineError.configError missing_key_error), [])) ∧
    (∀ k : String, secrets "OPENAI_API_KEY" = some k → k ≠ "" →
      (initialize_llm secrets env).1 =
        Except.ok { model_name := "gpt-4", temperature := 7/10 } ∧
      (initialize_llm secrets env).2 "OPENAI_API_KEY" = some k) ∧
    (∀ k : String, secrets "OPENAI_API_KEY" = none → env "OPENAI_API_KEY" = some k →
      k ≠ "" →
      (initialize_llm secrets env).1 =
        Except.ok { model_name := "gpt-4", temperature := 7/10 } ∧
      (initialize_llm secrets env).2 "OPENAI_API_KEY" = some k) := by
  refine ⟨?_, ?_, ?_⟩
  · intro hs he
    have hv : (initialize_llm secrets env).1 = Except.error missing_key_error := by
      unfold initialize_llm validate_env_vars
      rw [hs, he]
    refine ⟨hv, ?_⟩
    intro llmInvoke ur
    unfold process_meeting_data
    rw [hv]
  · intro k hs hk
    unfold initialize_llm validate_env_vars
    rw [hs]
    simp [hk]
  · intro k hs he hk
    unfold initialize_llm validate_env_vars
    rw [hs, he]
    simp [hk, he]

/-- Witness of the C3 theorem: no credential anywhere fails, a secret-store
credential succeeds, an environment credential succeeds. -/
theorem initialize_llm_credential_requirement_witness :
    (initialize_llm (fun _ => none) (fun _ => none)).1 =
      Except.error missing_key_error ∧
    (initialize_llm (fun n => if n = "OPENAI_API_KEY" then some "sk-secret" else none)
      (fun _ => none)).1 =
      Except.ok { model_name := "gpt-4", temperature := 7/10 } ∧
    (initialize_llm (fun _ => none)
      (fun n => if n = "OPENAI_API_KEY" then some "sk-env" else none)).1 =
      Except.ok { model_name := "gpt-4", temperature := 7/10 } :=
  ⟨((initialize_llm_credential_requirement (fun _ => none) (fun _ => none)).1
      rfl rfl).1,
   ((initialize_llm_credential_requirement
      (fun n => if n = "OPENAI_API_KEY" then some "sk-secret" else none)
      (fun _ => none)).2.1 "sk-secret" rfl (by decide)).1,
   ((initialize_llm_credential_requirement (fun _ => none)
      (fun n => if n = "OPENAI_API_KEY" then some "sk-env" else none)).2.2
      "sk-env" rfl rfl (by decide)).1⟩

/-- C4: an oracle call failure at either pipeline stage propagates to the
caller of process_meeting_data with no retry and no fallback document, and
on success the renderer output is exactly the text content of the oracle
reply, with no further validation. -/
theorem oracle_failure_propagates :
    (∀ (secrets env : String → Option String) (llmInvoke : ChatOpenAI → Oracle)
      (ur : String) (client : ChatOpenAI) (e : OracleError),
      (initialize_llm secrets env).1 = Except.ok client →
      llmInvoke client (interview_prompt ur) = Except.error e →
      process_meeting_data secrets env llmInvoke ur =
        (Except.error (PipelineError.oracleFailure e), [interview_prompt ur])) ∧
    (∀ (secrets env : String → Option String) (llmInvoke : ChatOpenAI → Oracle)
      (ur : String) (client : ChatOpenAI) (m : ChatMsg) (e : OracleError),
      (initialize_llm secrets env).1 = Except.ok client →
      llmInvoke client (interview_prompt ur) = Except.ok m →
      llmInvoke client (mom_prompt m.content) = Except.error e →
      process_meeting_data secrets env llmInvoke ur =
        (Except.error (PipelineError.oracleFailure e),
         [interview_prompt ur, mom_prompt m.content])) ∧
    (∀ (llm : Oracle) (raw_data : String) (m : ChatMsg),
      llm (mom_prompt raw_data) = Except.ok m →
      create_mom_chain llm raw_data = Except.ok m.content) := by
  refine ⟨?_, ?_, ?_⟩
  · intro secrets env llmInvoke ur client e hinit h1
    unfold process_meeting_data
    rw [hinit]
    simp [create_raw_interview_chain, h1, Except.map]
  · intro secrets env llmInvoke ur client m e hinit h1 h2
    unfold process_meeting_data
    rw [hinit]
    simp [create_raw_interview_chain, create_mom_chain, h1, h2, Except.map]
  · intro llm raw_data m h
    unfold create_mom_chain
    rw [h]
    rfl

/-- Witness of the C4 theorem: a first-stage failure, a second-stage
failure, and a renderer success on a stub oracle. -/
theorem oracle_failure_propagates_witness :
    process_meeting_data (fun n => if n = "OPENAI_API_KEY" then some "sk" else none)
      (fun _ => none) (fun _ _ => Except.error ⟨"rate limited"⟩) "notes" =
      (Except.error (PipelineError.oracleFailure ⟨"rate limited"⟩),
       [interview_prompt "notes"]) ∧
    process_meeting_data (fun n => if n = "OPENAI_API_KEY" then some "sk" else none)
      (fun _ => none)
      (fun _ prompt =>
        match prompt with
        | [⟨Role.system, _⟩, ⟨Role.human, t⟩] =>
            if t = "notes" then Except.ok ⟨Role.assistant, "ok"⟩
            else Except.error ⟨"down"⟩
        | _ => Except.error ⟨"down"⟩) "notes" =
      (Except.error (PipelineError.oracleFailure ⟨"down"⟩),
       [interview_prompt "notes", mom_prompt "ok"]) ∧
    create_mom_chain (fun _ => Except.ok ⟨Role.assistant, "final document"⟩) "record" =
      Except.ok "final document" :=
  ⟨oracle_failure_propagates.1 _ _ _ "notes" ⟨"gpt-4", 7/10⟩ ⟨"rate limited"⟩
      rfl rfl,
   oracle_failure_propagates.2.1 _ _ _ "notes" ⟨"gpt-4", 7/10⟩ ⟨Role.assistant, "ok"⟩
      ⟨"down"⟩ rfl rfl rfl,
   oracle_failure_propagates.2.2 _ "record" ⟨Role.assistant, "final document"⟩ rfl⟩

/-- C5: for each processed meeting record the pipeline issues exactly two
oracle calls in sequence, the extraction prompt on the accumulated raw
text first and then the rendering prompt on the extraction result, and the
result packages both full replies. -/
theorem pipeline_two_stage_sequence
    (secrets env : String → Option String) (llmInvoke : ChatOpenAI → Oracle)
    (ur : String) (client : ChatOpenAI) (m1 m2 : ChatMsg)
    (hinit : (initialize_llm secrets env).1 = Except.ok client)
    (h1 : llmInvoke client (interview_prompt ur) = Except.ok m1)
    (h2 : llmInvoke client (mom_prompt m1.content) = Except.ok m2) :
    process_meeting_data secrets env llmInvoke ur =
      (Except.ok { raw_data := m1.content, meeting_minutes := m2.content },
       [interview_prompt ur, mom_prompt m1.content]) := by
  unfold process_meeting_data
  rw [hinit]
  simp [create_raw_interview_chain, create_mom_chain, h1, h2, Except.map]

/-- Witness of the C5 theorem on a stub oracle that always replies. -/
theorem pipeline_two_stage_sequence_witness :
    process_meeting_data (fun n => if n = "OPENAI_API_KEY" then some "sk" else none)
      (fun _ => none) (fun _ _ => Except.ok ⟨Role.assistant, "reply"⟩) "notes" =
      (Except.ok { raw_data := "reply", meeting_minutes := "reply" },
       [interview_prompt "notes", mom_prompt "reply"]) :=
  pipeline_two_stage_sequence _ _ _ "notes" ⟨"gpt-4", 7/10⟩
    ⟨Role.assistant, "reply"⟩ ⟨Role.assistant, "reply"⟩ rfl rfl rfl

/-- The interview loop returns the collected inputs followed by the prefix
of the remaining inputs before the first exit, independently of the chat
history and of the oracle replies; it returns nothing when no exit
arrives. -/
theorem interview_loop_spec (llm : ChatOracle) (inputs : List String)
    (hist : List ChatMsg) (collected : List String) :
    interview_loop llm inputs hist collected =
      if inputs.any (fun u => u.toLower == "exit") then
        some (collected ++ inputs.takeWhile (fun u => u.toLower != "exit"))
      else none := by
  induction inputs generalizing hist collected with
  | nil => simp [interview_loop]
  | cons u rest ih =>
      by_cases h : u.toLower = "exit"
      · simp [interview_loop, h]
      · rw [interview_loop, if_neg h, ih]
        simp [h, List.takeWhile_cons]

/-- C6: run_interactive_interview terminates its loop exactly on the first
input whose lowercasing is exit, and the raw text it returns is the
newline concatenation of exactly the user inputs before that signal — the
result does not depend on the oracle, so no assistant turn is included. -/
theorem interview_collects_exactly_user_turns (llm : ChatOracle)
    (inputs : List String) :
    run_interactive_interview llm inputs =
      if inputs.any (fun u => u.toLower == "exit") then
        some (String.intercalate "\n"
          (inputs.takeWhile (fun u => u.toLower != "exit")))
      else none := by
  show (interview_loop llm inputs
      [⟨Role.human, "Hello"⟩, create_interactive_chain llm "Hello" []] []).map
      (String.intercalate "\n") = _
  rw [interview_loop_spec]
  split <;> simp

/-- C7: the mom chain is deterministic given a fixed oracle: two
consecutive renderings of the same raw meeting data against an oracle
whose replies do not depend on its hidden state produce the same
document. -/
theorem render_deterministic_idempotent (σ : Type) (llm : StatefulOracle σ)
    (raw_data : String) (s : σ)
    (hdet : ∀ (a b : σ) (prompt : List ChatMsg), (llm a prompt).1 = (llm b prompt).1) :
    (render_twice llm raw_data s).1 = (render_twice llm raw_data s).2 := by
  show (llm s (mom_prompt raw_data)).1.map ChatMsg.content =
    (llm ((llm s (mom_prompt raw_data)).2) (mom_prompt raw_data)).1.map ChatMsg.content
  rw [hdet ((llm s (mom_prompt raw_data)).2) s (mom_prompt raw_data)]

/-- Witness of the C7 theorem on a deterministic stub oracle. -/
theorem render_deterministic_idempotent_witness :
    (render_twice (fun (u : Unit) _ =>
        (Except.ok ⟨Role.assistant, "minutes document"⟩, u)) "record" ()).1 =
    (render_twice (fun (u : Unit) _ =>
        (Except.ok ⟨Role.assistant, "minutes document"⟩, u)) "record" ()).2 :=
  render_deterministic_idempotent Unit
    (fun u _ => (Except.ok ⟨Role.assistant, "minutes document"⟩, u)) "record" ()
    (fun _ _ _ => rfl)

/-- C8: validate_env_vars copies a credential found in the secret store
into the environment variable OPENAI_API_KEY, overwriting any existing
value there, changes no other environment variable, and leaves the whole
environment unchanged when the secret store has no credential. -/
theorem validate_env_vars_env_effect (secrets env : String → Option String) :
    (∀ k : String, secrets "OPENAI_API_KEY" = some k →
      (validate_env_vars secrets env).2 "OPENAI_API_KEY" = some k ∧
      ∀ n : String, n ≠ "OPENAI_API_KEY" →
        (validate_env_vars secrets env).2 n = env n) ∧
    (secrets "OPENAI_API_KEY" = none →
      (validate_env_vars secrets env).2 = env) := by
  constructor
  · intro k hk
    unfold validate_env_vars
    rw [hk]
    constructor
    · by_cases h : k = "" <;> simp [h]
    · intro n hn
      by_cases h : k = "" <;> simp [h, hn]
  · intro h
    unfold validate_env_vars
    rw [h]
    cases he : env "OPENAI_API_KEY" with
    | none => rfl
    | some k => by_cases h2 : k = "" <;> simp [h2]

/-- Witness of the C8 theorem: the secret credential overwrites the
existing environment value and an unrelated variable is untouched. -/
theorem validate_env_vars_env_effect_witness :
    (validate_env_vars (fun n => if n = "OPENAI_API_KEY" then some "sk-new" else none)
      (fun _ => some "old")).2 "OPENAI_API_KEY" = some "sk-new" ∧
    (validate_env_vars (fun n => if n = "OPENAI_API_KEY" then some "sk-new" else none)
      (fun _ => some "old")).2 "PATH" = some "old" :=
  ⟨((validate_env_vars_env_effect
      (fun n => if n = "OPENAI_API_KEY" then some "sk-new" else none)
      (fun _ => some "old")).1 "sk-new" rfl).1,
   ((validate_env_vars_env_effect
      (fun n => if n = "OPENAI_API_KEY" then some "sk-new" else none)
      (fun _ => some "old")).1 "sk-new" rfl).2 "PATH" (by decide)⟩

/-- A dropWhile whose survivors all satisfy the predicate dropped
everything. -/
theorem dropWhile_nil_of_all_mem (p : Char → Bool) :
    ∀ l : List Char, (∀ x ∈ l.dropWhile p, p x = true) → l.dropWhile p = [] := by
  intro l
  induction l with
  | nil => intro _; rfl
  | cons a t ih =>
      intro h
      rw [List.dropWhile_cons] at h ⊢
      by_cases hp : p a = true
      · rw [if_pos hp] at h ⊢
        exact ih h
      · rw [if_neg hp] at h
        exact absurd (h a (List.mem_cons_self a t)) hp

/-- str.strip() of a string is empty exactly when every character is
Python whitespace. -/
theorem py_strip_eq_empty_iff (s : String) :
    py_strip s = "" ↔ ∀ c ∈ s.data, isPySpace c = true := by
  unfold py_strip
  constructor
  · intro h
    have h0 : ((s.data.dropWhile isPySpace).reverse.dropWhile isPySpace).reverse = [] := by
      simpa using congrArg String.data h
    rw [List.reverse_eq_nil_iff, List.dropWhile_eq_nil_iff] at h0
    have h1 : s.data.dropWhile isPySpace = [] := by
      apply dropWhile_nil_of_all_mem
      intro x hx
      exact h0 x (List.mem_reverse.mpr hx)
    exact List.dropWhile_eq_nil_iff.mp h1
  · intro h
    have h1 : s.data.dropWhile isPySpace = [] := List.dropWhile_eq_nil_iff.mpr h
    rw [h1]
    rfl

/-- C9: in the command-line manual-notes flow, notes whose joined text is
empty or all Python whitespace are silently replaced by the hardcoded ABC
Technologies sample, while any other notes are passed through unchanged. -/
theorem manual_notes_whitespace_fallback (user_input_lines : List String) :
    ((∀ c ∈ (String.intercalate "\n" user_input_lines).data, isPySpace c = true) →
      choose_manual_notes user_input_lines = abc_sample_notes) ∧
    ((∃ c ∈ (String.intercalate "\n" user_input_lines).data, isPySpace c = false) →
      choose_manual_notes user_input_lines =
        String.intercalate "\n" user_input_lines) := by
  constructor
  · intro h
    unfold choose_manual_notes
    rw [if_pos ((py_strip_eq_empty_iff _).mpr h)]
  · intro h
    unfold choose_manual_notes
    rw [if_neg]
    intro hc
    obtain ⟨c, hmem, hcf⟩ := h
    have hct := (py_strip_eq_empty_iff _).mp hc c hmem
    rw [hcf] at hct
    exact Bool.false_ne_true hct

/-- Witness of the C9 theorem: an empty line and a blank line fall back to
the sample, a real note passes through. -/
theorem manual_notes_whitespace_fallback_witness :
    choose_manual_notes ["", " "] = abc_sample_notes ∧
    choose_manual_notes ["short note"] = "short note" :=
  ⟨(manual_notes_whitespace_fallback ["", " "]).1 (by decide),
   (manual_notes_whitespace_fallback ["short note"]).2 ⟨'s', by decide, by decide⟩⟩

/-- After the flow selection is resolved, every further chat input adds two
displayed messages, is collected, and never reopens the selection. -/
theorem ui_chat_fold (llm : ChatOracle) (rest : List String) :
    ∀ s : SessionState, s.waiting_for_option = false →
      (rest.foldl (ui_step llm) s).messages.length = s.messages.length + 2 * rest.length ∧
      (rest.foldl (ui_step llm) s).collected_responses = s.collected_responses ++ rest ∧
      (rest.foldl (ui_step llm) s).waiting_for_option = false := by
  induction rest with
  | nil => intro s hw; simp [hw]
  | cons u t ih =>
      intro s hw
      rw [List.foldl_cons]
      have hstep : (ui_step llm s u).waiting_for_option = false ∧
          (ui_step llm s u).messages.length = s.messages.length + 2 ∧
          (ui_step llm s u).collected_responses = s.collected_responses ++ [u] := by
        unfold ui_step
        rw [hw]
        simp
      obtain ⟨hw2, hm2, hc2⟩ := hstep
      obtain ⟨ihm, ihc, ihw⟩ := ih (ui_step llm s u) hw2
      refine ⟨?_, ?_, ihw⟩
      · rw [ihm, hm2]
        simp [List.length_cons]
        omega
      · rw [ihc, hc2, List.append_assoc]
        rfl

/-- C10: on the chat page, after a valid flow selection the Generate
Meeting Minutes button is offered exactly once more than three messages
have accumulated — that is, from the second chat input on — and the raw
text its handler hands to process_meeting_data is the newline-join of
every collected user input, the initial flow-selection input included. -/
theorem ui_generate_button_and_input (llm : ChatOracle) (opt : String)
    (rest : List String) (hopt : opt = "1" ∨ opt = "2") :
    (ui_run llm (opt :: rest)).messages.length = 3 + 2 * rest.length ∧
    show_generate_button (ui_run llm (opt :: rest)) = decide (1 ≤ rest.length) ∧
    generate_minutes_input (ui_run llm (opt :: rest)) =
      String.intercalate "\n" (opt :: rest) := by
  have hstep : (ui_step llm init_session_state opt).messages.length = 3 ∧
      (ui_step llm init_session_state opt).collected_responses = [opt] ∧
      (ui_step llm init_session_state opt).waiting_for_option = false := by
    rcases hopt with h | h <;> subst h <;> exact ⟨rfl, rfl, rfl⟩
  obtain ⟨hm1, hc1, hw1⟩ := hstep
  have hrun : ui_run llm (opt :: rest) =
      rest.foldl (ui_step llm) (ui_step llm init_session_state opt) := rfl
  obtain ⟨hm, hc, _⟩ := ui_chat_fold llm rest (ui_step llm init_session_state opt) hw1
  rw [hrun]
  refine ⟨by rw [hm, hm1], ?_, ?_⟩
  · unfold show_generate_button
    rw [hm, hm1]
    simp only [decide_eq_decide]
    omega
  · unfold generate_minutes_input
    rw [hc, hc1]
    rfl

/-- Witness of the C10 theorem: after selecting the interview flow and one
chat answer, the button is offered and the joined input includes the
selection. -/
theorem ui_generate_button_and_input_witness :
    (ui_run (fun _ => ⟨Role.assistant, "reply"⟩) ("2" :: ["Acme Corp"])).messages.length =
      3 + 2 * (["Acme Corp"] : List String).length ∧
    show_generate_button (ui_run (fun _ => ⟨Role.assistant, "reply"⟩)
      ("2" :: ["Acme Corp"])) = decide (1 ≤ (["Acme Corp"] : List String).length) ∧
    generate_minutes_input (ui_run (fun _ => ⟨Role.assistant, "reply"⟩)
      ("2" :: ["Acme Corp"])) = String.intercalate "\n" ("2" :: ["Acme Corp"]) :=
  ui_generate_button_and_input (fun _ => ⟨Role.assistant, "reply"⟩) "2"
    ["Acme Corp"] (Or.inr rfl)

end MoM
